import Mathlib

/-!
Shallow embedding of the `nextdns` Python client library
(`src/nextdns/model.py`, `src/nextdns/const.py`, `src/nextdns/__init__.py`)
for checking the natural-language specification against the code.

Python `int` is modelled by `Int`; the float ratio fields are modelled by `Rat`
(the ratio values actually produced are one-decimal quantities, exactly
representable); Python `round(x, 1)` (banker's rounding, half to even) is
modelled on rationals by `py_round1`; raising an exception is modelled by
`Except`/`Option`; a JSON value by the inductive `Json`.
-/

namespace NextDnsSpec

/-- Parsed JSON values as handled by the library (`resp.json()` results). -/
inductive Json where
  | null : Json
  | bool (b : Bool) : Json
  | num (n : Int) : Json
  | str (s : String) : Json
  | arr (xs : List Json) : Json
  | obj (kvs : List (String × Json)) : Json

/-- Exceptions raised by the library (`src/nextdns/exceptions.py` is not in
the snapshot; the taxonomy is taken from the importers and the spec §7), plus
`typeError`/`lookupError` standing for the Python `TypeError`/`KeyError`
(and similar) exceptions an ill-shaped value would raise. -/
inductive NdError where
  | invalidApiKey : NdError
  | apiError (msg : String) : NdError
  | profileIdNotFound : NdError
  | profileNameNotFound : NdError
  | settingNotSupported : NdError
  | typeError : NdError
  | lookupError : NdError
deriving DecidableEq

/-- Python `round(q * 10) / 10` component: round to the nearest integer,
ties to even (banker's rounding, as Python's builtin `round` does). -/
def round_half_even (q : Rat) : Int :=
  let f : Int := q.floor
  if q - (f : Rat) < 1 / 2 then f
  else if q - (f : Rat) > 1 / 2 then f + 1
  else if f % 2 = 0 then f else f + 1

/-- Python `round(q, 1)`: one decimal digit, ties to even. -/
def py_round1 (q : Rat) : Rat :=
  ((round_half_even (q * 10) : Rat)) / 10

/-- The ratio expression shared by every `__post_init__` in
`src/nextdns/model.py`: `0 if not all_queries else
round(counter / all_queries * 100, 1)`. -/
def ratio_of (counter all_queries : Int) : Rat :=
  if all_queries = 0 then 0
  else py_round1 ((counter : Rat) / (all_queries : Rat) * 100)

/-- Embeds the `model.AnalyticsStatus` dataclass (fields exactly as declared). -/
structure AnalyticsStatus where
  default_queries : Int := 0
  blocked_queries : Int := 0
  allowed_queries : Int := 0
  all_queries : Int := 0
  blocked_queries_ratio : Rat := 0
deriving DecidableEq

/-- Embeds `AnalyticsStatus.__post_init__`: sets `all_queries` to the sum of the
three counters, then `blocked_queries_ratio` from it. -/
def AnalyticsStatus.post_init (s : AnalyticsStatus) : AnalyticsStatus :=
  let all := s.default_queries + s.blocked_queries + s.allowed_queries
  { s with
    all_queries := all
    blocked_queries_ratio := ratio_of s.blocked_queries all }

/-- Embeds the `model.AnalyticsDnssec` dataclass. -/
structure AnalyticsDnssec where
  not_validated_queries : Int := 0
  validated_queries : Int := 0
  validated_queries_ratio : Rat := 0
deriving DecidableEq

/-- Embeds `AnalyticsDnssec.__post_init__`: the total is a local variable, not a
stored field. -/
def AnalyticsDnssec.post_init (s : AnalyticsDnssec) : AnalyticsDnssec :=
  let all := s.validated_queries + s.not_validated_queries
  { s with validated_queries_ratio := ratio_of s.validated_queries all }

/-- Embeds the `model.AnalyticsEncrypted` dataclass. -/
structure AnalyticsEncrypted where
  encrypted_queries : Int := 0
  unencrypted_queries : Int := 0
  encrypted_queries_ratio : Rat := 0
deriving DecidableEq

/-- Embeds `AnalyticsEncrypted.__post_init__`. -/
def AnalyticsEncrypted.post_init (s : AnalyticsEncrypted) : AnalyticsEncrypted :=
  let all := s.encrypted_queries + s.unencrypted_queries
  { s with encrypted_queries_ratio := ratio_of s.encrypted_queries all }

/-- Embeds the `model.AnalyticsIpVersions` dataclass. -/
structure AnalyticsIpVersions where
  ipv6_queries : Int := 0
  ipv4_queries : Int := 0
  ipv6_queries_ratio : Rat := 0
deriving DecidableEq

/-- Embeds `AnalyticsIpVersions.__post_init__`. -/
def AnalyticsIpVersions.post_init (s : AnalyticsIpVersions) : AnalyticsIpVersions :=
  let all := s.ipv6_queries + s.ipv4_queries
  { s with ipv6_queries_ratio := ratio_of s.ipv6_queries all }

/-- Embeds the `model.AnalyticsProtocols` dataclass: only `doh`, `dot` and `udp`
counters are declared. -/
structure AnalyticsProtocols where
  doh_queries : Int := 0
  dot_queries : Int := 0
  udp_queries : Int := 0
  doh_queries_ratio : Rat := 0
  dot_queries_ratio : Rat := 0
  udp_queries_ratio : Rat := 0
deriving DecidableEq

/-- Embeds `AnalyticsProtocols.__post_init__`. -/
def AnalyticsProtocols.post_init (s : AnalyticsProtocols) : AnalyticsProtocols :=
  let all := s.doh_queries + s.dot_queries + s.udp_queries
  { s with
    doh_queries_ratio := ratio_of s.doh_queries all
    dot_queries_ratio := ratio_of s.dot_queries all
    udp_queries_ratio := ratio_of s.udp_queries all }

/-- Embeds the `model.ProfileInfo` dataclass. -/
structure ProfileInfo where
  id : String
  fingerprint : String
  name : String
deriving DecidableEq

/-! ### Lookup tables (`src/nextdns/const.py`) and the kwargs construction
used by the analytics getters in `src/nextdns/__init__.py`.

`AnalyticsX(**{MAP[item[key]]: item["queries"] for item in resp})` is
modelled in three steps: translating every raw key through the table
(a missing table entry is a Python `KeyError`), reading each declared
field out of the keyword dictionary (a later duplicate key wins, as in a
dict comprehension), and rejecting any keyword that is not a declared
field of the dataclass (a Python `TypeError`). -/

/-- Embeds `const.MAP_STATUS`. -/
def MAP_STATUS : List (String × String) :=
  [("allowed", "allowed_queries"), ("blocked", "blocked_queries"),
   ("default", "default_queries"), ("relayed", "relayed_queries")]

/-- Embeds `const.MAP_PROTOCOLS` (note the `dquic_queries` target). -/
def MAP_PROTOCOLS : List (String × String) :=
  [("DNS-over-HTTPS", "doh_queries"), ("DNS-over-QUIC", "dquic_queries"),
   ("DNS-over-TLS", "dot_queries"), ("UDP", "udp_queries")]

/-- Dictionary lookup `table[k]` on an association list, `none` for the
Python `KeyError` case. -/
def tableGet (table : List (String × String)) (k : String) : Option String :=
  (table.find? (fun kv => kv.1 == k)).map (fun kv => kv.2)

/-- An analytics response row as read by the getters: the raw category key
(`item["status"]`, `item["protocol"]`, ...) and `item["queries"]`. -/
abbrev RespRow := String × Int

/-- Translate every raw key of the response through the lookup table;
`none` when some key has no table entry (Python `KeyError`). -/
def translate_keys (table : List (String × String)) :
    List RespRow → Option (List RespRow)
  | [] => some []
  | (k, v) :: rest =>
    match tableGet table k, translate_keys table rest with
    | some k2, some rest2 => some ((k2, v) :: rest2)
    | _, _ => none

/-- Value of key `k` in the keyword dictionary built from the translated
rows: the last occurrence wins, as in a dict comprehension. -/
def kwargsGet (kwargs : List RespRow) (k : String) : Option Int :=
  match kwargs with
  | [] => none
  | (k2, v) :: rest => match kwargsGet rest k with
    | some v2 => some v2
    | none => if k2 == k then some v else none

/-- The declared field names of `AnalyticsStatus` (the keywords its
constructor accepts). -/
def statusFields : List String :=
  ["default_queries", "blocked_queries", "allowed_queries",
   "all_queries", "blocked_queries_ratio"]

/-- The declared field names of `AnalyticsDnssec`. -/
def dnssecFields : List String :=
  ["not_validated_queries", "validated_queries", "validated_queries_ratio"]

/-- The declared field names of `AnalyticsEncrypted`. -/
def encryptedFields : List String :=
  ["encrypted_queries", "unencrypted_queries", "encrypted_queries_ratio"]

/-- The declared field names of `AnalyticsIpVersions`. -/
def ipVersionsFields : List String :=
  ["ipv6_queries", "ipv4_queries", "ipv6_queries_ratio"]

/-- The declared field names of `AnalyticsProtocols`. -/
def protocolsFields : List String :=
  ["doh_queries", "dot_queries", "udp_queries",
   "doh_queries_ratio", "dot_queries_ratio", "udp_queries_ratio"]

/-- A keyword dictionary is accepted by a dataclass constructor only when
every keyword is a declared field; otherwise Python raises `TypeError`. -/
def kwargsValid (fields : List String) (kwargs : List RespRow) : Bool :=
  kwargs.all (fun kv => fields.contains kv.1)

/-- Embeds `AnalyticsStatus(**kwargs)`: check the keywords, fill missing fields
with their defaults, then run `__post_init__`. -/
def mk_status (kwargs : List RespRow) : Option AnalyticsStatus :=
  if kwargsValid statusFields kwargs then
    some (AnalyticsStatus.post_init
      { default_queries := (kwargsGet kwargs "default_queries").getD 0
        blocked_queries := (kwargsGet kwargs "blocked_queries").getD 0
        allowed_queries := (kwargsGet kwargs "allowed_queries").getD 0
        all_queries := (kwargsGet kwargs "all_queries").getD 0
        blocked_queries_ratio :=
          ((kwargsGet kwargs "blocked_queries_ratio").getD 0 : Int) })
  else none

/-- Embeds `AnalyticsProtocols(**kwargs)`. -/
def mk_protocols (kwargs : List RespRow) : Option AnalyticsProtocols :=
  if kwargsValid protocolsFields kwargs then
    some (AnalyticsProtocols.post_init
      { doh_queries := (kwargsGet kwargs "doh_queries").getD 0
        dot_queries := (kwargsGet kwargs "dot_queries").getD 0
        udp_queries := (kwargsGet kwargs "udp_queries").getD 0
        doh_queries_ratio := ((kwargsGet kwargs "doh_queries_ratio").getD 0 : Int)
        dot_queries_ratio := ((kwargsGet kwargs "dot_queries_ratio").getD 0 : Int)
        udp_queries_ratio := ((kwargsGet kwargs "udp_queries_ratio").getD 0 : Int) })
  else none

/-- Embeds `NextDns.get_analytics_status` after the HTTP layer: decode the rows
through `MAP_STATUS` and call the `AnalyticsStatus` constructor. -/
def get_analytics_status (resp : List RespRow) : Option AnalyticsStatus :=
  (translate_keys MAP_STATUS resp).bind mk_status

/-- Embeds `NextDns.get_analytics_protocols` after the HTTP layer. -/
def get_analytics_protocols (resp : List RespRow) : Option AnalyticsProtocols :=
  (translate_keys MAP_PROTOCOLS resp).bind mk_protocols

/-! ### The error classifier of `NextDns._http_request`. -/

/-- Lookup of key `k` in a parsed JSON object body (Python dict access;
dict keys are unique, so first match suffices). -/
def objGet (kvs : List (String × Json)) (k : String) : Option Json :=
  (kvs.find? (fun kv => kv.1 == k)).map (fun kv => kv.2)

/-- Embeds `result["errors"][0]["code"]` when the chain of accesses succeeds and
yields a string; `none` models the exception Python would raise instead. -/
def errorsFirstCode (body : Json) : Option String :=
  match body with
  | Json.obj kvs =>
    match objGet kvs "errors" with
    | some (Json.arr (first :: _)) =>
      match first with
      | Json.obj kvs2 =>
        match objGet kvs2 "code" with
        | some (Json.str c) => some c
        | _ => none
      | _ => none
    | _ => none
  | _ => none

/-- Embeds `result["data"] if "data" in result else result` on the 200 body.
For a dict, `in` is key membership; for a list, element membership (where
hitting a `"data"` element would then fail on the string subscript);
`in` on a non-iterable raises `TypeError`. -/
def unwrapData (body : Json) : Except NdError Json :=
  match body with
  | Json.obj kvs =>
    match objGet kvs "data" with
    | some v => Except.ok v
    | none => Except.ok (Json.obj kvs)
  | Json.arr xs =>
    if xs.any (fun x => match x with | Json.str s => s == "data" | _ => false)
    then Except.error NdError.typeError
    else Except.ok (Json.arr xs)
  | Json.str s =>
    if (s.splitOn "data").length > 1 then Except.error NdError.typeError
    else Except.ok (Json.str s)
  | _ => Except.error NdError.typeError

/-- The status classification of `NextDns._http_request`, in source order:
403 raises `InvalidApiKeyError`; 204 on a delete/patch returns
`{"success": True}` without reading the body; any other non-200 status
raises `ApiError(f"{status}, {errors[0].code}")` (`lookupError` standing
for the exception Python raises when the error body lacks that path);
200 parses the body and unwraps a top-level `data` field. -/
def http_classify (method : String) (status : Nat) (body : Json) :
    Except NdError Json :=
  if status = 403 then Except.error NdError.invalidApiKey
  else if status = 204 ∧ (method = "delete" ∨ method = "patch") then
    Except.ok (Json.obj [("success", Json.bool true)])
  else if status ≠ 200 then
    match errorsFirstCode body with
    | some c => Except.error (NdError.apiError (toString status ++ ", " ++ c))
    | none => Except.error NdError.lookupError
  else unwrapData body

/-- Embeds `result.get("success", False) is True` as used by `clear_logs` (and
`set_web3`); a non-dict result has no `.get` and raises. -/
def result_get_success (result : Json) : Except NdError Bool :=
  match result with
  | Json.obj kvs =>
    Except.ok (match objGet kvs "success" with
      | some (Json.bool true) => true
      | _ => false)
  | _ => Except.error NdError.typeError

/-- Embeds `NextDns.clear_logs` after URL construction: a DELETE request whose
response (HTTP status and parsed body) is classified, then reduced to the
boolean `result.get("success", False) is True`. -/
def clear_logs (status : Nat) (body : Json) : Except NdError Bool := do
  let result ← http_classify "delete" status body
  result_get_success result

/-! ### The Profile Directory (`NextDns.get_profile_name` and its
spec-described counterpart). -/

/-- Embeds `NextDns.get_profile_name`: linear scan of `self.profiles`, first
entry with matching `id` wins, `ProfileIdNotFoundError` when none does. -/
def get_profile_name (profiles : List ProfileInfo) (profile_id : String) :
    Except NdError String :=
  match profiles with
  | [] => Except.error NdError.profileIdNotFound
  | p :: rest =>
    if p.id = profile_id then Except.ok p.name
    else get_profile_name rest profile_id

/-- Modelled from the spec: `get_profile_id` is absent from `src/nextdns`
(only the tests reference it). Per spec §4.4 it is the linear scan dual of
`get_profile_name`: it returns the `id` of the entry whose `name` equals
the argument exactly, and fails with `ProfileNameNotFoundError` when no
entry matches. -/
def get_profile_id (profiles : List ProfileInfo) (name : String) :
    Except NdError String :=
  match profiles with
  | [] => Except.error NdError.profileNameNotFound
  | p :: rest =>
    if p.name = name then Except.ok p.id
    else get_profile_id rest name

/-! ### `set_setting` (spec-modelled). -/

/-- An HTTP request as observable at the transport: verb and the setting
being toggled (standing for the endpoint and payload). -/
structure HttpCall where
  method : String
  setting : String
  value : Bool
deriving DecidableEq

/-- The first step `set_setting` takes: either it proceeds to issue an
HTTP request, or it raises before any request is made. -/
inductive SetSettingStep where
  | request (call : HttpCall) : SetSettingStep
  | failure (e : NdError) : SetSettingStep
deriving DecidableEq

/-- Modelled from the spec: the `set_setting` allow-list is absent from
`src/nextdns` (only the tests reference `set_setting` and
`SettingNotSupportedError`). Per spec §4.5 it is a fixed list of
recognized setting names; the member names are those the repository's
tests exercise as settings. -/
def SUPPORTED_SETTINGS : List String :=
  ["block_page", "cache_boost", "cname_flattening", "anonymized_ecs",
   "logs", "web3", "allow_affiliate", "block_disguised_trackers",
   "ai_threat_detection", "block_csam", "block_ddns", "block_nrd",
   "block_parked_domains", "cryptojacking_protection", "dga_protection",
   "dns_rebinding_protection", "google_safe_browsing",
   "idn_homograph_attacks_protection", "threat_intelligence_feeds",
   "typosquatting_protection", "block_bypass_methods", "safesearch",
   "youtube_restricted_mode"]

/-- Modelled from the spec: `set_setting` is absent from `src/nextdns`
(only the tests reference it). Per spec §4.5 it validates the setting
name against the fixed allow-list before issuing any request and fails
fast with `SettingNotSupportedError` for unrecognized names, issuing no
network call in that case; for recognized names it proceeds to issue the
PATCH request. -/
def set_setting (_profile_id : String) (name : String) (value : Bool) :
    SetSettingStep :=
  if name ∈ SUPPORTED_SETTINGS then
    SetSettingStep.request { method := "patch", setting := name, value := value }
  else
    SetSettingStep.failure NdError.settingNotSupported

/-- The Profile Directory of the repository's fixtures: one profile with
id `fakepr`, fingerprint `fakeprofile12`, name `Fake Profile`. -/
def fakeDirectory : List ProfileInfo :=
  [{ id := "fakepr", fingerprint := "fakeprofile12", name := "Fake Profile" }]

/-! ### Theorems. -/

/-- Helper: key translation preserves row membership — if the table sends
`k` to `k2` and the whole response translates, every `(k, q)` row of the
response yields a `(k2, q)` entry in the keyword dictionary. -/
theorem translate_keys_mem {table : List (String × String)}
    {resp kwargs : List RespRow} {k k2 : String} {q : Int}
    (hk : tableGet table k = some k2)
    (ht : translate_keys table resp = some kwargs)
    (hm : (k, q) ∈ resp) : (k2, q) ∈ kwargs := by
  induction resp generalizing kwargs with
  | nil => cases hm
  | cons row rest ih =>
    obtain ⟨a, b⟩ := row
    cases htg : tableGet table a with
    | none => simp [translate_keys, htg] at ht
    | some a2 =>
      cases htr : translate_keys table rest with
      | none => simp [translate_keys, htg, htr] at ht
      | some rest2 =>
        have hkw : kwargs = (a2, b) :: rest2 := by
          simp [translate_keys, htg, htr] at ht
          exact ht.symm
        subst hkw
        rcases List.mem_cons.mp hm with heq | hmem
        · injection heq with h1 h2
          subst h1
          subst h2
          have ha2 : a2 = k2 := by
            rw [htg] at hk
            exact Option.some.inj hk
          subst ha2
          exact List.mem_cons_self _ _
        · exact List.mem_cons_of_mem _ (ih htr hmem)

/-- C10: any status analytics response containing an entry keyed
`relayed` makes `get_analytics_status` fail: `MAP_STATUS` translates
`relayed` to the keyword `relayed_queries`, which the `AnalyticsStatus`
dataclass does not declare, so the constructor call raises and no status
aggregate carrying a relayed counter is ever produced. -/
theorem relayed_entry_fails (resp : List RespRow) (q : Int)
    (hm : ("relayed", q) ∈ resp) :
    get_analytics_status resp = none := by
  unfold get_analytics_status
  cases htr : translate_keys MAP_STATUS resp with
  | none => rfl
  | some kwargs =>
    have hmem : ("relayed_queries", q) ∈ kwargs :=
      translate_keys_mem (by rfl) htr hm
    have hval : kwargsValid statusFields kwargs = false := by
      unfold kwargsValid
      rw [← Bool.not_eq_true]
      intro hcon
      have hall := List.all_eq_true.mp hcon ("relayed_queries", q) hmem
      have hcontains : statusFields.contains "relayed_queries" = true := hall
      exact absurd hcontains (by decide)
    show mk_status kwargs = none
    simp [mk_status, hval]

/-- Witness for C10: the fixture row `{"status": "relayed",
"queries": 6279}` alone already makes the status decode fail. -/
theorem relayed_entry_fails_witness :
    get_analytics_status [("relayed", 6279)] = none :=
  relayed_entry_fails [("relayed", 6279)] 6279 (by simp)

/-- C4 (code evaluated at the failing input): decoding the protocols
fixture of the repository's tests — counts `doh=118488, doq=0,
dot=1261772, udp=40` under the provider keys — does not yield an
aggregate at all: `MAP_PROTOCOLS` sends `DNS-over-QUIC` to the keyword
`dquic_queries`, which `AnalyticsProtocols` does not declare, so the
constructor call raises instead of producing the ratios the tests (and
the claim) expect. -/
theorem protocols_fixture_fails :
    get_analytics_protocols
      [("DNS-over-HTTPS", 118488), ("DNS-over-QUIC", 0),
       ("DNS-over-TLS", 1261772), ("UDP", 40)] = none := rfl

/-- C1 (counterexample): not every counter field has a paired ratio
field — `default_queries` is a counter field of `AnalyticsStatus`, yet
`default_queries_ratio` is not among its declared fields. -/
theorem status_counter_missing_ratio_field :
    "default_queries" ∈ statusFields
    ∧ "default_queries_ratio" ∉ statusFields := by decide

/-- C1 (amended): each aggregate pairs a ratio field only with its
designated counters — `blocked` for status, `validated` for dnssec,
`encrypted` for encryption, `ipv6` for ip versions, and each of
`doh`/`dot`/`udp` for protocols — and after construction every stored
ratio equals the ratio recomputed from the final counters,
`round(counter / total * 100, 1)` when the aggregate's total is nonzero
and `0` otherwise. -/
theorem stored_ratios_consistent (s : AnalyticsStatus) (d : AnalyticsDnssec)
    (e : AnalyticsEncrypted) (i : AnalyticsIpVersions) (p : AnalyticsProtocols) :
    ((s.post_init).blocked_queries_ratio
      = ratio_of (s.post_init).blocked_queries (s.post_init).all_queries)
    ∧ ((d.post_init).validated_queries_ratio
      = ratio_of (d.post_init).validated_queries
          ((d.post_init).validated_queries + (d.post_init).not_validated_queries))
    ∧ ((e.post_init).encrypted_queries_ratio
      = ratio_of (e.post_init).encrypted_queries
          ((e.post_init).encrypted_queries + (e.post_init).unencrypted_queries))
    ∧ ((i.post_init).ipv6_queries_ratio
      = ratio_of (i.post_init).ipv6_queries
          ((i.post_init).ipv6_queries + (i.post_init).ipv4_queries))
    ∧ ((p.post_init).doh_queries_ratio
      = ratio_of (p.post_init).doh_queries
          ((p.post_init).doh_queries + (p.post_init).dot_queries
            + (p.post_init).udp_queries))
    ∧ ((p.post_init).dot_queries_ratio
      = ratio_of (p.post_init).dot_queries
          ((p.post_init).doh_queries + (p.post_init).dot_queries
            + (p.post_init).udp_queries))
    ∧ ((p.post_init).udp_queries_ratio
      = ratio_of (p.post_init).udp_queries
          ((p.post_init).doh_queries + (p.post_init).dot_queries
            + (p.post_init).udp_queries)) :=
  ⟨rfl, rfl, rfl, rfl, rfl, rfl, rfl⟩

/-- C2 (counterexample): `AnalyticsDnssec` declares no `all_queries`
field at all, and `AnalyticsStatus` declares no `relayed_queries`
counter, so neither does every aggregate store such a field nor does the
status total range over a relayed counter. -/
theorem dnssec_lacks_all_queries_field :
    "all_queries" ∉ dnssecFields ∧ "relayed_queries" ∉ statusFields := by decide

/-- C2 (amended): only the status aggregate stores an `all_queries`
field; after construction it equals the sum of the status counters
`default + blocked + allowed` (there is no relayed counter); the other
aggregates compute their total transiently without storing it. -/
theorem status_all_queries_is_sum (s : AnalyticsStatus) :
    (s.post_init).all_queries
      = (s.post_init).default_queries + (s.post_init).blocked_queries
        + (s.post_init).allowed_queries := rfl

/-- C3: whenever an aggregate's total query count is zero, every ratio
field it stores equals 0 after construction; the guard `0 if not
all_queries else ...` means the division is never taken on a zero total,
so construction is total (never fails, no NaN). -/
theorem zero_total_ratios_zero
    (s : AnalyticsStatus) (d : AnalyticsDnssec) (e : AnalyticsEncrypted)
    (i : AnalyticsIpVersions) (p : AnalyticsProtocols)
    (hs : s.default_queries + s.blocked_queries + s.allowed_queries = 0)
    (hd : d.validated_queries + d.not_validated_queries = 0)
    (he : e.encrypted_queries + e.unencrypted_queries = 0)
    (hi : i.ipv6_queries + i.ipv4_queries = 0)
    (hp : p.doh_queries + p.dot_queries + p.udp_queries = 0) :
    (s.post_init).blocked_queries_ratio = 0
    ∧ (d.post_init).validated_queries_ratio = 0
    ∧ (e.post_init).encrypted_queries_ratio = 0
    ∧ (i.post_init).ipv6_queries_ratio = 0
    ∧ (p.post_init).doh_queries_ratio = 0
    ∧ (p.post_init).dot_queries_ratio = 0
    ∧ (p.post_init).udp_queries_ratio = 0 := by
  refine ⟨?_, ?_, ?_, ?_, ?_, ?_, ?_⟩
  · simp [AnalyticsStatus.post_init, ratio_of, hs]
  · simp [AnalyticsDnssec.post_init, ratio_of, hd]
  · simp [AnalyticsEncrypted.post_init, ratio_of, he]
  · simp [AnalyticsIpVersions.post_init, ratio_of, hi]
  · simp [AnalyticsProtocols.post_init, ratio_of, hp]
  · simp [AnalyticsProtocols.post_init, ratio_of, hp]
  · simp [AnalyticsProtocols.post_init, ratio_of, hp]

/-- Witness for C3: the all-defaults (all-zero) aggregates have every
ratio field equal to 0. -/
theorem zero_total_ratios_zero_witness :
    (({} : AnalyticsStatus).post_init).blocked_queries_ratio = 0
    ∧ (({} : AnalyticsDnssec).post_init).validated_queries_ratio = 0
    ∧ (({} : AnalyticsEncrypted).post_init).encrypted_queries_ratio = 0
    ∧ (({} : AnalyticsIpVersions).post_init).ipv6_queries_ratio = 0
    ∧ (({} : AnalyticsProtocols).post_init).doh_queries_ratio = 0
    ∧ (({} : AnalyticsProtocols).post_init).dot_queries_ratio = 0
    ∧ (({} : AnalyticsProtocols).post_init).udp_queries_ratio = 0 :=
  zero_total_ratios_zero {} {} {} {} {} rfl rfl rfl rfl rfl

/-- C5: for every request — any HTTP method, any response body — a
response with status 403 raises `InvalidApiKeyError`; since the result is
the same even for delete/patch methods and for bodies of any shape, the
403 check takes effect before the 204 mutation check, the non-success
check and any body parsing. -/
theorem forbidden_raises_invalid_api_key (method : String) (body : Json) :
    http_classify method 403 body = Except.error NdError.invalidApiKey := rfl

/-- C6: a response whose status is neither 403, nor 204 on a
delete/patch, nor a 2xx success raises `ApiError` whose message is the
status and the first error code of the body, formatted exactly as
`"<status>, <code>"`. -/
theorem other_status_raises_api_error (method : String) (status : Nat)
    (body : Json) (c : String)
    (h403 : status ≠ 403)
    (h204 : ¬(status = 204 ∧ (method = "delete" ∨ method = "patch")))
    (h2xx : ¬(200 ≤ status ∧ status ≤ 299))
    (hcode : errorsFirstCode body = some c) :
    http_classify method status body
      = Except.error (NdError.apiError (toString status ++ ", " ++ c)) := by
  have h200 : status ≠ 200 := by
    intro h
    exact h2xx (by rw [h]; exact ⟨by norm_num, by norm_num⟩)
  unfold http_classify
  rw [if_neg h403, if_neg h204, if_pos h200, hcode]

/-- Witness for C6 at the spec's fixture: HTTP 400 with body
`{"errors": [{"code": "badRequest"}]}` raises `ApiError` with message
exactly `"400, badRequest"`. -/
theorem other_status_raises_api_error_witness :
    http_classify "get" 400
      (Json.obj [("errors", Json.arr [Json.obj [("code", Json.str "badRequest")]])])
      = Except.error (NdError.apiError "400, badRequest") :=
  other_status_raises_api_error "get" 400
    (Json.obj [("errors", Json.arr [Json.obj [("code", Json.str "badRequest")]])])
    "badRequest" (by decide) (by decide) (by decide) rfl

/-- C7: a 204 response to a delete or patch request is classified as the
implicit success body `{"success": True}` (whatever the response body
was); in particular `clear_logs`, whose DELETE is answered with 204,
resolves to `True`. -/
theorem no_content_mutation_success (body : Json) :
    http_classify "delete" 204 body
      = Except.ok (Json.obj [("success", Json.bool true)])
    ∧ http_classify "patch" 204 body
      = Except.ok (Json.obj [("success", Json.bool true)])
    ∧ clear_logs 204 body = Except.ok true :=
  ⟨rfl, rfl, rfl⟩

/-- C8: Profile Directory lookups are case-sensitive exact linear scans —
lookup by id returns the name of the (first) entry whose id equals the
argument and raises `ProfileIdNotFoundError` when no entry matches;
lookup by name returns the id of the (first) entry whose name equals the
argument and raises `ProfileNameNotFoundError` when no entry matches. -/
theorem profile_directory_lookup (profiles : List ProfileInfo)
    (pid pname : String) (p : ProfileInfo) :
    (profiles.find? (fun x => x.id == pid) = some p →
      get_profile_name profiles pid = Except.ok p.name)
    ∧ ((∀ x ∈ profiles, x.id ≠ pid) →
      get_profile_name profiles pid = Except.error NdError.profileIdNotFound)
    ∧ (profiles.find? (fun x => x.name == pname) = some p →
      get_profile_id profiles pname = Except.ok p.id)
    ∧ ((∀ x ∈ profiles, x.name ≠ pname) →
      get_profile_id profiles pname = Except.error NdError.profileNameNotFound) := by
  induction profiles with
  | nil =>
    refine ⟨?_, ?_, ?_, ?_⟩
    · intro h; simp [List.find?] at h
    · intro _; rfl
    · intro h; simp [List.find?] at h
    · intro _; rfl
  | cons q rest ih =>
    refine ⟨?_, ?_, ?_, ?_⟩
    · intro h
      by_cases hq : q.id = pid
      · rw [List.find?_cons_of_pos _ (by simp [hq])] at h
        cases Option.some.inj h
        simp [get_profile_name, hq]
      · rw [List.find?_cons_of_neg _ (by simp [hq])] at h
        simpa [get_profile_name, hq] using ih.1 h
    · intro h
      have hq : q.id ≠ pid := h q (List.mem_cons_self q rest)
      have hrest := ih.2.1 (fun x hx => h x (List.mem_cons_of_mem q hx))
      simpa [get_profile_name, hq] using hrest
    · intro h
      by_cases hq : q.name = pname
      · rw [List.find?_cons_of_pos _ (by simp [hq])] at h
        cases Option.some.inj h
        simp [get_profile_id, hq]
      · rw [List.find?_cons_of_neg _ (by simp [hq])] at h
        simpa [get_profile_id, hq] using ih.2.2.1 h
    · intro h
      have hq : q.name ≠ pname := h q (List.mem_cons_self q rest)
      have hrest := ih.2.2.2 (fun x hx => h x (List.mem_cons_of_mem q hx))
      simpa [get_profile_id, hq] using hrest

/-- Witness for C8 at the repository's fixture directory: `fakepr` maps
to `Fake Profile` and back, and unknown keys raise the respective
not-found error. -/
theorem profile_directory_lookup_witness :
    get_profile_name fakeDirectory "fakepr" = Except.ok "Fake Profile"
    ∧ get_profile_id fakeDirectory "Fake Profile" = Except.ok "fakepr"
    ∧ get_profile_name fakeDirectory "xxyyxx"
      = Except.error NdError.profileIdNotFound
    ∧ get_profile_id fakeDirectory "Profile Name"
      = Except.error NdError.profileNameNotFound :=
  ⟨(profile_directory_lookup fakeDirectory "fakepr" "Fake Profile"
      { id := "fakepr", fingerprint := "fakeprofile12", name := "Fake Profile" }).1
      (by decide),
   (profile_directory_lookup fakeDirectory "fakepr" "Fake Profile"
      { id := "fakepr", fingerprint := "fakeprofile12", name := "Fake Profile" }).2.2.1
      (by decide),
   (profile_directory_lookup fakeDirectory "xxyyxx" "Fake Profile"
      { id := "fakepr", fingerprint := "fakeprofile12", name := "Fake Profile" }).2.1
      (by decide),
   (profile_directory_lookup fakeDirectory "fakepr" "Profile Name"
      { id := "fakepr", fingerprint := "fakeprofile12", name := "Fake Profile" }).2.2.2
      (by decide)⟩

/-- C9: `set_setting` with a setting name outside the fixed allow-list
fails with `SettingNotSupportedError` as its very first step, before any
HTTP request is issued — the failing step carries no request. -/
theorem unsupported_setting_fails_fast (profile_id name : String) (value : Bool)
    (h : name ∉ SUPPORTED_SETTINGS) :
    set_setting profile_id name value
      = SetSettingStep.failure NdError.settingNotSupported := by
  unfold set_setting
  rw [if_neg h]

/-- Witness for C9 at the tests' input: `set_setting(id,
"unsupported_setting", True)` fails fast with no request issued. -/
theorem unsupported_setting_fails_fast_witness :
    set_setting "fakepr" "unsupported_setting" true
      = SetSettingStep.failure NdError.settingNotSupported :=
  unsupported_setting_fails_fast "fakepr" "unsupported_setting" true (by decide)

end NextDnsSpec
